import Mathlib

/-!
Shallow embedding of `logger.go` from the upper/db package: the severity
levels, the logging collector with its sink dispatch, and the
`QueryStatus` report rendering.  Definitions are translated from the Go
source; the theorems settle the specification's claims about them.
-/

/-! ### Severity levels (logger.go lines 34-55) -/

/-- Go: `type LogLevel int8`.  The named constants stay far inside the
int8 range and no arithmetic is performed on levels, so `Int` models
the type exactly for every value the program constructs. -/
abbrev LogLevel := Int

/-- Go: `LogLevelTrace LogLevel = -1`, the first ConstSpec of the block. -/
def LogLevelTrace : LogLevel := -1

/-- Go: `LogLevelDebug LogLevel = iota`.  In Go, `iota` is the index of
the ConstSpec inside the whole `const` block; the `LogLevelTrace` spec
occupies index 0, so this spec sees `iota = 1` and `LogLevelDebug = 1`. -/
def LogLevelDebug : LogLevel := 1

/-- Go: next ConstSpec, `iota = 2`. -/
def LogLevelInfo : LogLevel := 2

/-- Go: next ConstSpec, `iota = 3`. -/
def LogLevelWarn : LogLevel := 3

/-- Go: next ConstSpec, `iota = 4`. -/
def LogLevelError : LogLevel := 4

/-- Go: next ConstSpec, `iota = 5`. -/
def LogLevelFatal : LogLevel := 5

/-- Go: next ConstSpec, `iota = 6`. -/
def LogLevelPanic : LogLevel := 6

/-- Go map `logLevels` (display names); a missing key yields Go's zero
value for `string`, the empty string. -/
def logLevels (l : LogLevel) : String :=
  if l = LogLevelTrace then "TRACE"
  else if l = LogLevelDebug then "DEBUG"
  else if l = LogLevelInfo then "INFO"
  else if l = LogLevelWarn then "WARN"
  else if l = LogLevelError then "ERROR"
  else if l = LogLevelFatal then "FATAL"
  else if l = LogLevelPanic then "PANIC"
  else ""

/-- Go: `defaultLogLevel = LogLevelWarn` (logger.go line 135). -/
def defaultLogLevel : LogLevel := LogLevelWarn

/-! ### Sinks and the logging collector (logger.go lines 138-239) -/

/-- Identity of a `Logger` (sink) value.  `default` is the package-wide
`defaultLogger`; `custom i` stands for a caller-supplied logger. -/
inductive SinkV where
  | default
  | custom (id : Nat)
deriving DecidableEq

/-- One of the three methods of the `Logger` interface. -/
inductive CallKind where
  | Printf
  | Fatalf
  | Panicf
deriving DecidableEq

/-- Record of one call made to a sink: which sink received it, which
method was invoked, the format string, and the variadic arguments.
`α` stands for Go's opaque `interface{}` argument values, which the
collector passes through untouched. -/
structure SinkCall (α : Type) where
  sink : SinkV
  kind : CallKind
  format : String
  args : List α
deriving DecidableEq

/-- State of `loggingCollector`: a level and a logger field whose Go
type (the `Logger` interface) admits nil, modelled by `none`. -/
structure Collector where
  level : LogLevel
  logger : Option SinkV
deriving DecidableEq

/-- Go `Logger()` (logger.go lines 178-183): return the stored logger,
or the package-wide `defaultLogger` when the field is nil.  The
`Option` codomain models Go's nilable interface return type; claim C9
is that this method never actually returns `none`. -/
def Collector.Logger (c : Collector) : Option SinkV :=
  match c.logger with
  | none => some SinkV.default
  | some l => some l

/-- Go `SetLogger` (logger.go lines 185-187). -/
def Collector.SetLogger (c : Collector) (logger : Option SinkV) : Collector :=
  { c with logger := logger }

/-- Go `SetLevel` (logger.go lines 170-172). -/
def Collector.SetLevel (c : Collector) (level : LogLevel) : Collector :=
  { c with level := level }

/-- Go `Level` (logger.go lines 174-176). -/
def Collector.Level (c : Collector) : LogLevel := c.level

/-- Go `loggingCollector.log` (logger.go lines 189-202).  The
translation returns the list of sink calls the body performs together
with the (unchanged) receiver state.  Call sites pass a string as the
template `f`, and `fmt.Sprintf("%v", f)` of a string is the string
itself, so `f : String` is used directly.  The three `if` statements
in the source are sequential, but `Panicf` unwinds the stack and
`Fatalf` terminates the process (both per the Sink contract and Go's
`log` package), so control never reaches a later statement once one
branch fires: the body performs exactly the first triggered call. -/
def Collector.log {α : Type} (c : Collector) (level : LogLevel) (f : String) (v : List α) :
    List (SinkCall α) × Collector :=
  if level < c.level then ([], c)
  else
    let format := logLevels c.level ++ "\n" ++ f
    let s := match c.Logger with
      | some l => l
      | none => SinkV.default
    if LogLevelPanic ≤ c.level then ([⟨s, CallKind.Panicf, format, v⟩], c)
    else if LogLevelFatal ≤ c.level then ([⟨s, CallKind.Fatalf, format, v⟩], c)
    else ([⟨s, CallKind.Printf, format, v⟩], c)

/-- Go `Trace` (logger.go lines 208-210). -/
def Collector.Trace {α : Type} (c : Collector) (f : String) (v : List α) :
    List (SinkCall α) × Collector :=
  c.log LogLevelTrace f v

/-- Go `Debug` (logger.go lines 204-206). -/
def Collector.Debug {α : Type} (c : Collector) (f : String) (v : List α) :
    List (SinkCall α) × Collector :=
  c.log LogLevelDebug f v

/-- Go `Info` (logger.go lines 212-214). -/
def Collector.Info {α : Type} (c : Collector) (f : String) (v : List α) :
    List (SinkCall α) × Collector :=
  c.log LogLevelInfo f v

/-- Go `Warn` (logger.go lines 216-218). -/
def Collector.Warn {α : Type} (c : Collector) (f : String) (v : List α) :
    List (SinkCall α) × Collector :=
  c.log LogLevelWarn f v

/-- Go `Error` (logger.go lines 220-222). -/
def Collector.Error {α : Type} (c : Collector) (f : String) (v : List α) :
    List (SinkCall α) × Collector :=
  c.log LogLevelError f v

/-- Go `Fatal` (logger.go lines 224-226). -/
def Collector.Fatal {α : Type} (c : Collector) (f : String) (v : List α) :
    List (SinkCall α) × Collector :=
  c.log LogLevelFatal f v

/-- Go `Panic` (logger.go lines 228-230). -/
def Collector.Panic {α : Type} (c : Collector) (f : String) (v : List α) :
    List (SinkCall α) × Collector :=
  c.log LogLevelPanic f v

/-- Go `defaultLoggingCollector` (logger.go lines 232-235). -/
def defaultLoggingCollector : Collector :=
  { level := defaultLogLevel, logger := some SinkV.default }

/-- The seven named severities, in the claims' ordering. -/
inductive NamedLevel where
  | TRACE
  | DEBUG
  | INFO
  | WARN
  | ERROR
  | FATAL
  | PANIC
deriving DecidableEq

/-- Numeric value of a named severity. -/
def NamedLevel.toLevel : NamedLevel → LogLevel
  | .TRACE => LogLevelTrace
  | .DEBUG => LogLevelDebug
  | .INFO => LogLevelInfo
  | .WARN => LogLevelWarn
  | .ERROR => LogLevelError
  | .FATAL => LogLevelFatal
  | .PANIC => LogLevelPanic

/-- Invoke the severity method that corresponds to a named level. -/
def NamedLevel.dispatch {α : Type} (n : NamedLevel) (c : Collector) (f : String) (v : List α) :
    List (SinkCall α) × Collector :=
  match n with
  | .TRACE => c.Trace f v
  | .DEBUG => c.Debug f v
  | .INFO => c.Info f v
  | .WARN => c.Warn f v
  | .ERROR => c.Error f v
  | .FATAL => c.Fatal f v
  | .PANIC => c.Panic f v

/-- Dispatch rule of spec section 4.4 steps 3-5, phrased on a level:
panic at or above PANIC, fatal at or above FATAL, plain print below. -/
def thresholdKind (l : LogLevel) : CallKind :=
  if LogLevelPanic ≤ l then CallKind.Panicf
  else if LogLevelFatal ≤ l then CallKind.Fatalf
  else CallKind.Printf

/-- Sink a dispatch resolves to, following the spec's words: the
configured sink when set, otherwise the process-wide default. -/
def resolveSink (o : Option SinkV) : SinkV :=
  match o with
  | none => SinkV.default
  | some l => l

/-! ### QueryStatus and its rendering (logger.go lines 57-132) -/

/-- Character class of the regexp `[\s\r\n\t]` (logger.go line 70).  In
Go's RE2, `\s` is `[\t\n\f\r ]`, so the class is tab, newline, form
feed, carriage return and space. -/
def reInvisibleClass (c : Char) : Bool :=
  c = ' ' || c = '\t' || c = '\n' || c = '\x0c' || c = '\r'

/-- Effect of `reInvisibleChars.ReplaceAllString(query, " ")` (logger.go
line 105): each maximal (leftmost-longest) run of class characters is
replaced by a single space. -/
def collapseInvisible : List Char → List Char
  | [] => []
  | [c] => if reInvisibleClass c then [' '] else [c]
  | a :: b :: rest =>
    if reInvisibleClass a then
      if reInvisibleClass b then collapseInvisible (b :: rest)
      else ' ' :: collapseInvisible (b :: rest)
    else a :: collapseInvisible (b :: rest)

/-- Go `unicode.IsSpace` restricted to the Latin-1 range, where it
holds exactly for these characters.  The restriction is exact for this
program: the collapse above has already turned every `\s` run into a
plain space, and no call site produces space runes above U+00FF. -/
def goIsSpace (c : Char) : Bool :=
  c = ' ' || c = '\t' || c = '\n' || c = '\x0b' || c = '\x0c' || c = '\r' ||
  c = '\x85' || c = '\xa0'

/-- Go `strings.TrimSpace` (logger.go line 106): drop leading and
trailing space characters. -/
def goTrimSpace (s : String) : String :=
  String.mk (((s.data.dropWhile goIsSpace).reverse.dropWhile goIsSpace).reverse)

/-- Go `%05d`: decimal digits, left-padded with zeros to width 5 (wider
numbers are printed in full). -/
def pad0 (w : Nat) (n : Nat) : String :=
  String.mk (List.replicate (w - (toString n).length) '0') ++ toString n

/-- Rounding of `n / d` (for `d > 0`) to the nearest integer with ties
to even, the rounding `strconv` applies to the decimal digits. -/
def roundHalfEven (n : Int) (d : Int) : Int :=
  let q := Int.fdiv n d
  let r := n - q * d
  if 2 * r < d then q
  else if d < 2 * r then q + 1
  else if q % 2 = 0 then q else q + 1

/-- Go `fmt.Sprintf("%0.5f", float64(nanos)/float64(1e9))` (logger.go
line 125).  The model rounds the exact rational `nanos / 10^9` to five
decimals in one step; the binary-then-decimal double rounding of the
Go pipeline agrees with this on every value the claims evaluate (the
claims' 0.25 is exact in both).  Like Go, the sign is taken from the
value and the digits from its magnitude. -/
def fmtF5 (nanos : Int) : String :=
  let m := (roundHalfEven (Int.ofNat nanos.natAbs) 10000).toNat
  let sign := if nanos < 0 then "-" else ""
  sign ++ toString (m / 100000) ++ "." ++ pad0 5 (m % 100000)

/-- Go struct `QueryStatus` (logger.go lines 74-90).  `SessID` and
`TxID` are `uint64` values never subjected to arithmetic, so `Nat` is
exact; `Err` and `Context` are opaque interface values modelled by
their `%v` rendering (`none` = Go nil); `Args` elements by their `%#v`
rendering; the two times by their `UnixNano` value. -/
structure QueryStatus where
  SessID : Nat
  TxID : Nat
  RowsAffected : Option Int
  LastInsertID : Option Int
  Query : String
  Args : List String
  Err : Option String
  StartNano : Int
  EndNano : Int
  Context : Option String
deriving DecidableEq

/-- Go `fmt.Sprintf("%#v", q.Args)` for a `[]interface{}` value: the
slice header followed by the elements' representations, comma-space
separated, inside braces. -/
def goSharpVSlice (args : List String) : String :=
  "[]interface \x7b\x7d\x7b" ++ String.intercalate ", " args ++ "\x7d"

/-- Line list built by `QueryStatus.String` (logger.go lines 94-129),
in source order, each line guarded exactly as in the source. -/
def QueryStatus.lines (q : QueryStatus) : List String :=
  (if 0 < q.SessID then ["Session ID:     " ++ pad0 5 q.SessID] else [])
  ++ (if 0 < q.TxID then ["Transaction ID: " ++ pad0 5 q.TxID] else [])
  ++ (if q.Query = "" then []
      else ["Query:          " ++ goTrimSpace (String.mk (collapseInvisible q.Query.data))])
  ++ (if 0 < q.Args.length then ["Arguments:      " ++ goSharpVSlice q.Args] else [])
  ++ (match q.RowsAffected with
      | some n => ["Rows affected:  " ++ toString n]
      | none => [])
  ++ (match q.LastInsertID with
      | some n => ["Last insert ID: " ++ toString n]
      | none => [])
  ++ (match q.Err with
      | some e => ["Error:          " ++ e]
      | none => [])
  ++ ["Time taken:     " ++ fmtF5 (q.EndNano - q.StartNano) ++ "s"]
  ++ (match q.Context with
      | some ctx => ["Context:        " ++ ctx]
      | none => [])

/-- Expansion underlying `strings.Replace(s, "\n", "\n\t", -1)`: the
pattern is the single character newline, so the replacement rewrites
each character independently. -/
def nlExpand : List Char → List Char
  | [] => []
  | c :: rest => (if c = '\n' then ['\n', '\t'] else [c]) ++ nlExpand rest

/-- Go `strings.Replace(s, "\n", "\n\t", -1)` (logger.go line 131). -/
def replaceNLTab (s : String) : String :=
  String.mk (nlExpand s.data)

/-- Go method `func (q *QueryStatus) String() string` (the spec's
`render()`), final formula of logger.go line 131. -/
def QueryStatus.render (q : QueryStatus) : String :=
  "\t" ++ replaceNLTab (String.intercalate "\n" q.lines) ++ "\n\n"

/-- State-passing form of the `String` method: the body only reads the
receiver and assigns nothing through the pointer, so the returned
receiver state is the given one. -/
def QueryStatus.renderM (q : QueryStatus) : String × QueryStatus :=
  (q.render, q)

/-- Boolean test that `pat` occurs at the start of `l`. -/
def leadsWith : List Char → List Char → Bool
  | _, [] => true
  | [], _ :: _ => false
  | a :: l, b :: p => a = b && leadsWith l p

/-- Boolean test that `pat` occurs contiguously somewhere in `l`. -/
def containsSeq (l pat : List Char) : Bool :=
  match l with
  | [] => pat.isEmpty
  | _ :: rest => leadsWith l pat || containsSeq rest pat

/-- Substring containment test used to state the rendering claims. -/
def containsStr (s pat : String) : Bool :=
  containsSeq s.data pat.data

/-! ### Helper lemmas -/

/-- Each severity method forwards to the shared dispatch with its fixed
level. -/
theorem dispatch_eq_log {α : Type} (n : NamedLevel) (c : Collector) (f : String) (v : List α) :
    n.dispatch c f v = c.log n.toLevel f v := by
  cases n <;> rfl

/-- The shared dispatch never writes the collector's fields. -/
theorem log_state_id {α : Type} (c : Collector) (lvl : LogLevel) (f : String) (v : List α) :
    (c.log lvl f v).2 = c := by
  unfold Collector.log
  split
  · rfl
  · dsimp only
    split
    · rfl
    · split
      · rfl
      · rfl

/-! ### Claims -/

/-- Claim C4 fails on the code: Go's `iota` equals the ConstSpec index
inside the whole block, so `LogLevelDebug` is 1, not 0 (and the later
levels are shifted up by one as well). -/
theorem c4_counterexample :
    LogLevelDebug = 1 ∧ LogLevelDebug ≠ 0 ∧ LogLevelInfo ≠ 1 ∧ LogLevelWarn ≠ 2 ∧
    LogLevelError ≠ 3 ∧ LogLevelFatal ≠ 4 ∧ LogLevelPanic ≠ 5 := by
  decide

/-- Claim C4 (amended): the levels have the numeric values TRACE = -1,
DEBUG = 1, INFO = 2, WARN = 3, ERROR = 4, FATAL = 5, PANIC = 6, and the
numeric order matches the severity order, with TRACE strictly below
DEBUG. -/
theorem c4_level_values :
    LogLevelTrace = -1 ∧ LogLevelDebug = 1 ∧ LogLevelInfo = 2 ∧ LogLevelWarn = 3 ∧
    LogLevelError = 4 ∧ LogLevelFatal = 5 ∧ LogLevelPanic = 6 ∧
    LogLevelTrace < LogLevelDebug ∧ LogLevelDebug < LogLevelInfo ∧
    LogLevelInfo < LogLevelWarn ∧ LogLevelWarn < LogLevelError ∧
    LogLevelError < LogLevelFatal ∧ LogLevelFatal < LogLevelPanic := by
  decide

/-- Claim C1 fails at the boundary L1 = L2 of its `L1 ≤ L2` hypothesis:
with the threshold WARN, dispatching at WARN is not suppressed — the
sink's Printf is called once. -/
theorem c1_counterexample :
    LogLevelWarn ≤ LogLevelWarn ∧
    (NamedLevel.WARN.dispatch ⟨LogLevelWarn, none⟩ "m" ([] : List Nat)).1 =
      [⟨SinkV.default, CallKind.Printf, "WARN\nm", []⟩] ∧
    (NamedLevel.WARN.dispatch ⟨LogLevelWarn, none⟩ "m" ([] : List Nat)).1 ≠ [] := by
  decide

/-- Claim C1 (amended): for severities strictly below the configured
threshold, dispatch through the corresponding severity method is
suppressed — no sink method is called. -/
theorem c1_suppressed_below_threshold {α : Type} (n1 n2 : NamedLevel)
    (h : n1.toLevel < n2.toLevel) (o : Option SinkV) (f : String) (v : List α) :
    (n1.dispatch ⟨n2.toLevel, o⟩ f v).1 = [] := by
  rw [dispatch_eq_log]
  unfold Collector.log
  rw [if_pos h]

/-- Witness for `c1_suppressed_below_threshold` at DEBUG below WARN. -/
theorem c1_suppressed_below_threshold_witness :
    NamedLevel.DEBUG.toLevel < NamedLevel.WARN.toLevel ∧
    (NamedLevel.DEBUG.dispatch ⟨NamedLevel.WARN.toLevel, none⟩ "m" ([] : List Nat)).1 = [] :=
  ⟨by decide, c1_suppressed_below_threshold NamedLevel.DEBUG NamedLevel.WARN (by decide) none "m" []⟩

/-- Claim C2: dispatching at exactly the configured threshold performs
exactly one sink call — the one the dispatch rule selects — never zero
and never more than one. -/
theorem c2_exactly_one_call_at_threshold {α : Type} (n : NamedLevel) (o : Option SinkV)
    (f : String) (v : List α) :
    (n.dispatch ⟨n.toLevel, o⟩ f v).1 =
      [⟨resolveSink o, thresholdKind n.toLevel, logLevels n.toLevel ++ "\n" ++ f, v⟩] ∧
    (n.dispatch ⟨n.toLevel, o⟩ f v).1.length = 1 := by
  cases n <;> cases o <;> exact ⟨rfl, rfl⟩

/-- Claim C5 fails on the code: with a custom sink and the default
threshold (WARN), `Error("x=%d", 5)` does route one Printf to the
custom sink with args [5], but the template carries the threshold's
name — it is `"WARN\nx=%d"`, not the claimed `"ERROR\nx=%d"`. -/
theorem c5_counterexample :
    (Collector.Error ⟨defaultLogLevel, some (SinkV.custom 1)⟩ "x=%d" ([5] : List Int)).1 =
      [⟨SinkV.custom 1, CallKind.Printf, "WARN\nx=%d", [5]⟩] ∧
    ("WARN\nx=%d" : String) ≠ "ERROR\nx=%d" := by
  decide

/-- Claim C5 (amended): with any custom sink set and the default
threshold, `Error("x=%d", 5)` routes exactly one `Printf` call to that
custom sink (not the default sink), carrying the literal template
`"WARN\nx=%d"` (the threshold's label) and the argument list [5]. -/
theorem c5_custom_sink_threshold_label (id : Nat) :
    (Collector.Error ⟨defaultLogLevel, some (SinkV.custom id)⟩ "x=%d" ([5] : List Int)).1 =
      [⟨SinkV.custom id, CallKind.Printf, "WARN\nx=%d", [5]⟩] := by
  rfl

/-- Claim C3: on every non-suppressed dispatch the template handed to
the sink is the display name of the configured threshold followed by a
newline and the caller's template, and the choice among Panicf, Fatalf
and Printf is decided by comparing the configured threshold — not the
call's level — against PANIC and FATAL. -/
theorem c3_threshold_decides_format_and_kind {α : Type} (c : Collector) (lvl : LogLevel)
    (f : String) (v : List α) (h : c.level ≤ lvl) :
    (c.log lvl f v).1 =
      [⟨resolveSink c.logger, thresholdKind c.level, logLevels c.level ++ "\n" ++ f, v⟩] := by
  unfold Collector.log thresholdKind resolveSink Collector.Logger
  rw [if_neg (not_lt.mpr h)]
  cases hl : c.logger <;>
    by_cases h1 : LogLevelPanic ≤ c.level <;>
    by_cases h2 : LogLevelFatal ≤ c.level <;>
    simp [h1, h2]

/-- Witness for `c3_threshold_decides_format_and_kind`: threshold WARN,
call at ERROR, custom sink 2. -/
theorem c3_threshold_decides_format_and_kind_witness :
    (Collector.level ⟨LogLevelWarn, some (SinkV.custom 2)⟩ ≤ LogLevelError) ∧
    (Collector.log ⟨LogLevelWarn, some (SinkV.custom 2)⟩ LogLevelError "x" ([] : List Nat)).1 =
      [⟨resolveSink (some (SinkV.custom 2)), thresholdKind LogLevelWarn,
        logLevels LogLevelWarn ++ "\n" ++ "x", []⟩] :=
  ⟨by decide,
   c3_threshold_decides_format_and_kind ⟨LogLevelWarn, some (SinkV.custom 2)⟩
     LogLevelError "x" [] (by decide)⟩

/-- Claim C9: reading the collector's sink never yields nil — when the
field is unset (or has been reset to nil through `SetLogger`) the
accessor returns the process-wide default sink. -/
theorem c9_logger_never_nil (c : Collector) :
    c.Logger ≠ none ∧
    (c.logger = none → c.Logger = some SinkV.default) ∧
    (c.SetLogger none).Logger = some SinkV.default := by
  refine ⟨?_, ?_, rfl⟩
  · cases hl : c.logger <;> simp [Collector.Logger, hl]
  · intro hl
    simp [Collector.Logger, hl]

/-- Witness for `c9_logger_never_nil` on a collector with an unset
sink. -/
theorem c9_logger_never_nil_witness :
    (Collector.logger ⟨LogLevelWarn, none⟩ = none) ∧
    Collector.Logger ⟨LogLevelWarn, none⟩ = some SinkV.default :=
  ⟨rfl, (c9_logger_never_nil ⟨LogLevelWarn, none⟩).2.1 rfl⟩

/-- Claim C10: every severity method and the shared dispatch leave the
collector's level and sink fields unchanged (suppressed or emitted);
`SetLevel` writes only the level and `SetLogger` writes only the
logger. -/
theorem c10_frame {α : Type} (c : Collector) (n : NamedLevel) (f : String) (v : List α)
    (lvl : LogLevel) (o : Option SinkV) :
    (n.dispatch c f v).2 = c ∧
    (c.log lvl f v).2 = c ∧
    (c.SetLevel lvl).level = lvl ∧ (c.SetLevel lvl).logger = c.logger ∧
    (c.SetLogger o).logger = o ∧ (c.SetLogger o).level = c.level := by
  refine ⟨?_, log_state_id c lvl f v, rfl, rfl, rfl, rfl⟩
  rw [dispatch_eq_log]
  exact log_state_id c n.toLevel f v

/-- Claim C8: rendering is a pure function of the `QueryStatus` value —
the receiver comes back unchanged and a second rendering of it yields
the identical string. -/
theorem c8_render_pure (q : QueryStatus) :
    q.renderM.2 = q ∧ q.renderM.1 = q.renderM.2.renderM.1 :=
  ⟨rfl, rfl⟩

/-- Claim C6: the spec's concrete rendering example — session id 7,
transaction id 0, query `"SELECT   1\n"`, no arguments, no row counts,
no error, no context, duration a quarter second.  The output contains
the Session ID, Query (collapsed and trimmed) and Time taken lines and
none of the other labels. -/
theorem c6_render_example (T : Int) :
    containsStr
      (QueryStatus.render ⟨7, 0, none, none, "SELECT   1\n", [], none, T, T + 250000000, none⟩)
      "Session ID:     00007" = true ∧
    containsStr
      (QueryStatus.render ⟨7, 0, none, none, "SELECT   1\n", [], none, T, T + 250000000, none⟩)
      "Query:          SELECT 1" = true ∧
    containsStr
      (QueryStatus.render ⟨7, 0, none, none, "SELECT   1\n", [], none, T, T + 250000000, none⟩)
      "Time taken:     0.25000s" = true ∧
    containsStr
      (QueryStatus.render ⟨7, 0, none, none, "SELECT   1\n", [], none, T, T + 250000000, none⟩)
      "Transaction ID" = false ∧
    containsStr
      (QueryStatus.render ⟨7, 0, none, none, "SELECT   1\n", [], none, T, T + 250000000, none⟩)
      "Arguments" = false ∧
    containsStr
      (QueryStatus.render ⟨7, 0, none, none, "SELECT   1\n", [], none, T, T + 250000000, none⟩)
      "Rows affected" = false ∧
    containsStr
      (QueryStatus.render ⟨7, 0, none, none, "SELECT   1\n", [], none, T, T + 250000000, none⟩)
      "Last insert ID" = false ∧
    containsStr
      (QueryStatus.render ⟨7, 0, none, none, "SELECT   1\n", [], none, T, T + 250000000, none⟩)
      "Error" = false ∧
    containsStr
      (QueryStatus.render ⟨7, 0, none, none, "SELECT   1\n", [], none, T, T + 250000000, none⟩)
      "Context" = false := by
  have h : QueryStatus.render ⟨7, 0, none, none, "SELECT   1\n", [], none, T, T + 250000000, none⟩ =
      QueryStatus.render ⟨7, 0, none, none, "SELECT   1\n", [], none, 0, 250000000, none⟩ := by
    simp only [QueryStatus.render, QueryStatus.lines, add_sub_cancel_left, sub_zero]
  rw [h]
  decide

/-- The newline replacement never produces a list whose last character
is a newline: every emitted newline is immediately followed by a tab. -/
theorem nlExpand_last (l : List Char) :
    nlExpand l = [] ∨ ∃ t c, nlExpand l = t ++ [c] ∧ c ≠ '\n' := by
  induction l with
  | nil => exact Or.inl rfl
  | cons a l ih =>
    right
    rcases ih with h | ⟨t, c, ht, hc⟩
    · by_cases ha : a = '\n'
      · exact ⟨['\n'], '\t', by simp [nlExpand, ha, h], by decide⟩
      · exact ⟨[], a, by simp [nlExpand, ha, h], ha⟩
    · refine ⟨(if a = '\n' then ['\n', '\t'] else [a]) ++ t, c, ?_, hc⟩
      simp [nlExpand, ht]

/-- Claim C7: every rendering equals the joined guarded lines with each
newline replaced by newline-plus-tab, prefixed by one tab and followed
by two newlines; consequently it always starts with a tab and ends with
exactly two newlines (never three). -/
theorem c7_render_shape (q : QueryStatus) :
    q.render = "\t" ++ replaceNLTab (String.intercalate "\n" q.lines) ++ "\n\n" ∧
    q.render.data.head? = some '\t' ∧
    ['\n', '\n'] <:+ q.render.data ∧
    ¬ ['\n', '\n', '\n'] <:+ q.render.data := by
  have hd : q.render.data =
      '\t' :: (nlExpand (String.intercalate "\n" q.lines).data ++ ['\n', '\n']) := rfl
  refine ⟨rfl, by rw [hd]; rfl, ?_, ?_⟩
  · rw [hd]
    exact ⟨'\t' :: nlExpand (String.intercalate "\n" q.lines).data, by simp⟩
  · rw [hd]
    rintro ⟨t, ht⟩
    rcases nlExpand_last (String.intercalate "\n" q.lines).data with h0 | ⟨u, c, hu, hc⟩
    · rw [h0] at ht
      have h3 := congrArg List.reverse ht
      simp [List.reverse_append] at h3
    · rw [hu] at ht
      have h3 := congrArg List.reverse ht
      simp [List.reverse_append] at h3
      exact hc h3.1.symm
